import Mathlib

/-!
Shallow embedding of `src/services/pagination/Paginator.js` (lesgo-framework).

JavaScript values that the constructor inspects are modelled by `JSValue`
(numbers as `Rat`, since the code only checks `typeof x === 'number'` and any
numeric value — zero, negative, fractional — passes; `NaN`/`Infinity` are not
modelled).  The external data source (`db.select`) is modelled as a pure
function `String → π → Except ε (List ρ)`: given the query text and the bind
parameters it either fails with an error `ε` or returns an ordered list of
rows `ρ`.  Methods of the class are state-passing functions; each
result-dependent accessor returns the JS return value (as an `Except`, since
an awaited rejection propagates to the caller), the instance state after the
call, and the number of `db.select` invocations the call performed.
-/

deriving instance DecidableEq for Except

namespace LesgoPaginator

/-- A JavaScript value as far as `Paginator.js` inspects values:
`typeof` tags and truthiness are all the constructor uses. -/
inductive JSValue where
  | undefined : JSValue
  | null : JSValue
  | num (q : Rat) : JSValue
  | str (s : String) : JSValue
  | bool (b : Bool) : JSValue
deriving DecidableEq, Repr

/-- JavaScript `typeof`. -/
def JSValue.typeof : JSValue → String
  | .undefined => "undefined"
  | .null => "object"
  | .num _ => "number"
  | .str _ => "string"
  | .bool _ => "boolean"

/-- JavaScript falsiness: `undefined`, `null`, `0`, `""` and `false` are falsy. -/
def JSValue.falsy : JSValue → Bool
  | .undefined => true
  | .null => true
  | .num q => q == 0
  | .str s => s == ""
  | .bool b => !b

/-- Numeric payload of a value; in the embedding only used on values already
guarded by `typeof x = "number"`. -/
def JSValue.toNumber : JSValue → Rat
  | .num q => q
  | _ => 0

/-- `LesgoException(message, errorCode, statusCode, extra)`; the `extra`
payload `{ perPage }` is modelled as the field name paired with the value. -/
structure LesgoException where
  message : String
  errorCode : String
  statusCode : Nat
  extra : String × JSValue
deriving DecidableEq, Repr

/-- `const FILE = 'Services/pagination/Paginator';` -/
def FILE : String := "Services/pagination/Paginator"

/-- Instance state of `Paginator`: the constructor-assigned fields.
`response` is the cached row list (`this.response = []` initially). -/
structure Paginator (π ρ : Type) where
  sqlProp : String
  sqlParamsProp : π
  perPageProp : Rat
  currentPageProp : Rat
  hasNext : Bool
  response : List ρ
deriving DecidableEq, Repr

/-- The external collaborator `db.select`: query text and bind parameters to
either a data-source error or an ordered list of rows. -/
def DataSource (ε π ρ : Type) : Type := String → π → Except ε (List ρ)

/-- The constructor `constructor(sql, sqlParams, perPage, currentPage = null)`.
The default parameter makes an omitted (`undefined`) `currentPage` into
`null` before the body runs. -/
def Paginator.construct {π ρ : Type} (sql : String) (sqlParams : π)
    (perPage : JSValue) (currentPageArg : JSValue) :
    Except LesgoException (Paginator π ρ) :=
  let currentPage := if currentPageArg = JSValue.undefined then JSValue.null
    else currentPageArg
  if perPage.typeof = "undefined" then
    .error ⟨"Missing required 'perPage'", FILE ++ "::MISSING_REQUIRED_PER_PAGE",
      500, ("perPage", perPage)⟩
  else if perPage.typeof ≠ "number" then
    .error ⟨"Invalid type for 'perPage'", FILE ++ "::INVALID_TYPE_PER_PAGE",
      500, ("perPage", perPage)⟩
  else if currentPage ≠ JSValue.null ∧ currentPage.typeof ≠ "number" then
    .error ⟨"Invalid type for 'currentPage'", FILE ++ "::INVALID_TYPE_CURRENT_PAGE",
      500, ("currentPage", currentPage)⟩
  else
    .ok { sqlProp := sql
          sqlParamsProp := sqlParams
          perPageProp := perPage.toNumber
          currentPageProp := if currentPage.falsy then 1 else currentPage.toNumber
          hasNext := false
          response := [] }

variable {ε π ρ : Type}

/-- `currentPage()`. -/
def Paginator.currentPage (p : Paginator π ρ) : Rat :=
  p.currentPageProp

/-- `perPage()`. -/
def Paginator.perPage (p : Paginator π ρ) : Rat :=
  p.perPageProp

/-- `previousPage()`: `currentPage() - 1` when `currentPage() > 1`, else the
JS value `false`. -/
def Paginator.previousPage (p : Paginator π ρ) : JSValue :=
  if p.currentPage > 1 then .num (p.currentPage - 1) else .bool false

/-- The `{ offset, limit }` object of
`getLimitAndOffsetByPageAndContentPerPage()`. -/
structure WindowValues where
  offset : Rat
  limit : Rat
deriving DecidableEq, Repr

/-- `getLimitAndOffsetByPageAndContentPerPage()`. -/
def Paginator.getLimitAndOffsetByPageAndContentPerPage (p : Paginator π ρ) :
    WindowValues :=
  let offset := p.currentPage * p.perPage - p.perPage
  let limit := p.perPage
  { offset := offset, limit := limit }

/-- JS number-to-string as used by the template literal; the integral case
(the only case any theorem exercises) renders the integer in decimal. -/
def jsNumToString (q : Rat) : String :=
  if q.den = 1 then toString q.num else toString q

/-- `generatePaginationSqlSnippet()`: appends
`" LIMIT (limit + 1) OFFSET (offset)"` to the base query text. -/
def Paginator.generatePaginationSqlSnippet (p : Paginator π ρ) : String :=
  let values := p.getLimitAndOffsetByPageAndContentPerPage
  let limitWithExtraData := values.limit + 1
  p.sqlProp ++ " LIMIT " ++ jsNumToString limitWithExtraData
    ++ " OFFSET " ++ jsNumToString values.offset

/-- `executeQuery()`: runs the windowed query through `db.select`; on success
stores the rows, sets `hasNext` by the over-fetch comparison and pops the
extra row when `hasNext`.  A rejection of `db.select` propagates before any
assignment, so the state is unchanged on error.  The `Nat` component counts
`db.select` invocations (always 1 here). -/
def Paginator.executeQuery (db : DataSource ε π ρ) (p : Paginator π ρ) :
    Except ε (List ρ) × Paginator π ρ × Nat :=
  match db p.generatePaginationSqlSnippet p.sqlParamsProp with
  | .error e => (.error e, p, 1)
  | .ok rows =>
      let hasNext : Bool := decide ((rows.length : Rat) > p.perPage)
      let response := if hasNext then rows.dropLast else rows
      (.ok response, { p with response := response, hasNext := hasNext }, 1)

/-- `count()`: fetch if the cache is empty, then the length of `response`. -/
def Paginator.count (db : DataSource ε π ρ) (p : Paginator π ρ) :
    Except ε Nat × Paginator π ρ × Nat :=
  if p.response.length ≤ 0 then
    match p.executeQuery db with
    | (.error e, p1, n) => (.error e, p1, n)
    | (.ok _, p1, n) => (.ok p1.response.length, p1, n)
  else
    (.ok p.response.length, p, 0)

/-- `nextPage()`: fetch if the cache is empty, then `currentPage() + 1` when
`hasNext`, else the JS value `false`. -/
def Paginator.nextPage (db : DataSource ε π ρ) (p : Paginator π ρ) :
    Except ε JSValue × Paginator π ρ × Nat :=
  if p.response.length ≤ 0 then
    match p.executeQuery db with
    | (.error e, p1, n) => (.error e, p1, n)
    | (.ok _, p1, n) =>
        (.ok (if p1.hasNext then .num (p1.currentPage + 1) else .bool false), p1, n)
  else
    (.ok (if p.hasNext then .num (p.currentPage + 1) else .bool false), p, 0)

/-- `firstItem()`: fetch if the cache is empty, then `this.response[0]`
(`undefined`, i.e. `none`, on an empty page). -/
def Paginator.firstItem (db : DataSource ε π ρ) (p : Paginator π ρ) :
    Except ε (Option ρ) × Paginator π ρ × Nat :=
  if p.response.length ≤ 0 then
    match p.executeQuery db with
    | (.error e, p1, n) => (.error e, p1, n)
    | (.ok _, p1, n) => (.ok p1.response.head?, p1, n)
  else
    (.ok p.response.head?, p, 0)

/-- `lastItem()`: fetch if the cache is empty, then
`this.response[this.response.length - 1]` (`undefined` on an empty page). -/
def Paginator.lastItem (db : DataSource ε π ρ) (p : Paginator π ρ) :
    Except ε (Option ρ) × Paginator π ρ × Nat :=
  if p.response.length ≤ 0 then
    match p.executeQuery db with
    | (.error e, p1, n) => (.error e, p1, n)
    | (.ok _, p1, n) => (.ok p1.response.getLast?, p1, n)
  else
    (.ok p.response.getLast?, p, 0)

/-- `items()`: fetch if the cache is empty, then the cached row list. -/
def Paginator.items (db : DataSource ε π ρ) (p : Paginator π ρ) :
    Except ε (List ρ) × Paginator π ρ × Nat :=
  if p.response.length ≤ 0 then
    match p.executeQuery db with
    | (.error e, p1, n) => (.error e, p1, n)
    | (.ok _, p1, n) => (.ok p1.response, p1, n)
  else
    (.ok p.response, p, 0)

/-- The object literal returned by `toObject()`. -/
structure Summary (ρ : Type) where
  count : Nat
  previous_page : JSValue
  current_page : Rat
  next_page : JSValue
  per_page : Rat
  items : List ρ
deriving DecidableEq, Repr

/-- The object-literal evaluation inside `toObject()`, after its own cache
check: `await this.count()`, `this.previousPage()`, `this.currentPage()`,
`await this.nextPage()`, `this.perPage()`, `await this.items()`, in JS
evaluation order, threading the state; an awaited rejection propagates.
`n0` is the invocation count accumulated by `toObject`'s own cache check. -/
def Paginator.toObjectFrom (db : DataSource ε π ρ) (p1 : Paginator π ρ)
    (n0 : Nat) : Except ε (Summary ρ) × Paginator π ρ × Nat :=
  match p1.count db with
  | (.error e, p2, n2) => (.error e, p2, n0 + n2)
  | (.ok cnt, p2, n2) =>
      match p2.nextPage db with
      | (.error e, p3, n3) => (.error e, p3, n0 + n2 + n3)
      | (.ok np, p3, n3) =>
          match p3.items db with
          | (.error e, p4, n4) => (.error e, p4, n0 + n2 + n3 + n4)
          | (.ok its, p4, n4) =>
              (.ok { count := cnt
                     previous_page := p2.previousPage
                     current_page := p2.currentPage
                     next_page := np
                     per_page := p3.perPage
                     items := its }, p4, n0 + n2 + n3 + n4)

/-- `toObject()`: fetch if the cache is empty, then build the summary object. -/
def Paginator.toObject (db : DataSource ε π ρ) (p : Paginator π ρ) :
    Except ε (Summary ρ) × Paginator π ρ × Nat :=
  if p.response.length ≤ 0 then
    match p.executeQuery db with
    | (.error e, p1, n) => (.error e, p1, n)
    | (.ok _, p1, n) => p1.toObjectFrom db n
  else
    p.toObjectFrom db 0

/-- The result-dependent accessors (the ones whose bodies start with the
cache check and may trigger `executeQuery`). -/
inductive Accessor where
  | count : Accessor
  | nextPage : Accessor
  | firstItem : Accessor
  | lastItem : Accessor
  | items : Accessor
  | toObject : Accessor
deriving DecidableEq, Repr

/-- Run one result-dependent accessor, keeping the state after the call and
the number of `db.select` invocations it performed. -/
def runAccessor (db : DataSource ε π ρ) (p : Paginator π ρ) :
    Accessor → Paginator π ρ × Nat
  | .count => ((p.count db).2.1, (p.count db).2.2)
  | .nextPage => ((p.nextPage db).2.1, (p.nextPage db).2.2)
  | .firstItem => ((p.firstItem db).2.1, (p.firstItem db).2.2)
  | .lastItem => ((p.lastItem db).2.1, (p.lastItem db).2.2)
  | .items => ((p.items db).2.1, (p.items db).2.2)
  | .toObject => ((p.toObject db).2.1, (p.toObject db).2.2)

/-- Run a sequence of result-dependent accessor calls on one instance,
accumulating the total number of `db.select` invocations. -/
def runAccessors (db : DataSource ε π ρ) (p : Paginator π ρ) :
    List Accessor → Paginator π ρ × Nat
  | [] => (p, 0)
  | a :: as =>
      let r1 := runAccessor db p a
      let r2 := runAccessors db r1.1 as
      (r2.1, r1.2 + r2.2)

/-- Concrete instance for witnesses: page 1, page size 10, empty cache. -/
def P1 : Paginator Unit Nat :=
  { sqlProp := "SELECT id FROM t", sqlParamsProp := (), perPageProp := 10,
    currentPageProp := 1, hasNext := false, response := [] }

/-- Concrete instance for witnesses: page 2, page size 10, empty cache. -/
def P2 : Paginator Unit Nat :=
  { sqlProp := "SELECT id FROM t", sqlParamsProp := (), perPageProp := 10,
    currentPageProp := 2, hasNext := false, response := [] }

/-- Concrete instance for witnesses: page 1, page size 10, empty cache. -/
def P5 : Paginator Unit Nat :=
  { sqlProp := "q", sqlParamsProp := (), perPageProp := 10,
    currentPageProp := 1, hasNext := false, response := [] }

/-- Concrete instance for witnesses: page size 0. -/
def P10z : Paginator Unit Nat :=
  { sqlProp := "q", sqlParamsProp := (), perPageProp := 0,
    currentPageProp := 1, hasNext := false, response := [] }

/-- Concrete instance for witnesses: negative page number. -/
def P10n : Paginator Unit Nat :=
  { sqlProp := "q", sqlParamsProp := (), perPageProp := 10,
    currentPageProp := -2, hasNext := false, response := [] }

/-- Expected `toObject()` result for `P1` against `db5`. -/
def O5 : Summary Nat :=
  { count := 5, previous_page := .bool false, current_page := 1,
    next_page := .bool false, per_page := 10, items := [1, 2, 3, 4, 5] }

/-- A data source that always yields five rows. -/
def db5 : DataSource String Unit Nat := fun _ _ => .ok [1, 2, 3, 4, 5]

/-- A data source that always yields eleven rows. -/
def db11 : DataSource String Unit Nat :=
  fun _ _ => .ok [1, 2, 3, 4, 5, 6, 7, 8, 9, 10, 11]

/-- A data source that always succeeds with zero rows. -/
def dbEmpty : DataSource String Unit Nat := fun _ _ => .ok []

/-- A data source that always fails. -/
def dbErr : DataSource String Unit Nat := fun _ _ => .error "boom"

theorem construct_num (sql : String) (params : π) (s n : Rat) :
    Paginator.construct (ρ := ρ) sql params (.num s) (.num n) =
      .ok { sqlProp := sql, sqlParamsProp := params, perPageProp := s,
            currentPageProp := if n = 0 then 1 else n, hasNext := false,
            response := [] } := by
  simp [Paginator.construct, JSValue.typeof, JSValue.toNumber, JSValue.falsy]

theorem construct_null (sql : String) (params : π) (s : Rat) :
    Paginator.construct (ρ := ρ) sql params (.num s) .null =
      .ok { sqlProp := sql, sqlParamsProp := params, perPageProp := s,
            currentPageProp := 1, hasNext := false, response := [] } := by
  simp [Paginator.construct, JSValue.typeof, JSValue.toNumber, JSValue.falsy]

theorem construct_undef (sql : String) (params : π) (s : Rat) :
    Paginator.construct (ρ := ρ) sql params (.num s) .undefined =
      .ok { sqlProp := sql, sqlParamsProp := params, perPageProp := s,
            currentPageProp := 1, hasNext := false, response := [] } := by
  simp [Paginator.construct, JSValue.typeof, JSValue.toNumber, JSValue.falsy]

theorem executeQuery_error (db : DataSource ε π ρ) (p : Paginator π ρ) (e : ε)
    (hdb : db p.generatePaginationSqlSnippet p.sqlParamsProp = .error e) :
    p.executeQuery db = (.error e, p, 1) := by
  simp [Paginator.executeQuery, hdb]

theorem executeQuery_ok_le (db : DataSource ε π ρ) (p : Paginator π ρ)
    (rows : List ρ)
    (hdb : db p.generatePaginationSqlSnippet p.sqlParamsProp = .ok rows)
    (hle : (rows.length : Rat) ≤ p.perPageProp) :
    p.executeQuery db =
      (.ok rows, { p with response := rows, hasNext := false }, 1) := by
  have h : ¬ ((rows.length : Rat) > p.perPage) := not_lt.mpr hle
  simp [Paginator.executeQuery, hdb, h]

theorem executeQuery_ok_gt (db : DataSource ε π ρ) (p : Paginator π ρ)
    (rows : List ρ)
    (hdb : db p.generatePaginationSqlSnippet p.sqlParamsProp = .ok rows)
    (hgt : p.perPageProp < (rows.length : Rat)) :
    p.executeQuery db =
      (.ok rows.dropLast,
       { p with response := rows.dropLast, hasNext := true }, 1) := by
  have h : ((rows.length : Rat) > p.perPage) := hgt
  simp [Paginator.executeQuery, hdb, h]

theorem count_cached (db : DataSource ε π ρ) (p : Paginator π ρ)
    (h : p.response ≠ []) :
    p.count db = (.ok p.response.length, p, 0) := by
  simp [Paginator.count, Nat.le_zero, List.length_eq_zero, h]

theorem nextPage_cached (db : DataSource ε π ρ) (p : Paginator π ρ)
    (h : p.response ≠ []) :
    p.nextPage db =
      (.ok (if p.hasNext then .num (p.currentPage + 1) else .bool false), p, 0) := by
  simp [Paginator.nextPage, Nat.le_zero, List.length_eq_zero, h]

theorem firstItem_cached (db : DataSource ε π ρ) (p : Paginator π ρ)
    (h : p.response ≠ []) :
    p.firstItem db = (.ok p.response.head?, p, 0) := by
  simp [Paginator.firstItem, Nat.le_zero, List.length_eq_zero, h]

theorem lastItem_cached (db : DataSource ε π ρ) (p : Paginator π ρ)
    (h : p.response ≠ []) :
    p.lastItem db = (.ok p.response.getLast?, p, 0) := by
  simp [Paginator.lastItem, Nat.le_zero, List.length_eq_zero, h]

theorem items_cached (db : DataSource ε π ρ) (p : Paginator π ρ)
    (h : p.response ≠ []) :
    p.items db = (.ok p.response, p, 0) := by
  simp [Paginator.items, Nat.le_zero, List.length_eq_zero, h]

theorem toObjectFrom_cached (db : DataSource ε π ρ) (p : Paginator π ρ)
    (n0 : Nat) (h : p.response ≠ []) :
    p.toObjectFrom db n0 =
      (.ok { count := p.response.length
             previous_page := p.previousPage
             current_page := p.currentPage
             next_page := if p.hasNext then .num (p.currentPage + 1) else .bool false
             per_page := p.perPage
             items := p.response }, p, n0) := by
  simp [Paginator.toObjectFrom, count_cached db p h, nextPage_cached db p h,
    items_cached db p h]

theorem toObject_cached (db : DataSource ε π ρ) (p : Paginator π ρ)
    (h : p.response ≠ []) :
    p.toObject db =
      (.ok { count := p.response.length
             previous_page := p.previousPage
             current_page := p.currentPage
             next_page := if p.hasNext then .num (p.currentPage + 1) else .bool false
             per_page := p.perPage
             items := p.response }, p, 0) := by
  have h0 : ¬ (p.response.length ≤ 0) := by
    simp [Nat.le_zero, List.length_eq_zero, h]
  simp only [Paginator.toObject, h0, if_false]
  exact toObjectFrom_cached db p 0 h

theorem count_state_mem (db : DataSource ε π ρ) (q : Paginator π ρ) :
    (q.count db).2.1 = q ∨ (q.count db).2.1 = (q.executeQuery db).2.1 := by
  by_cases h0 : q.response.length ≤ 0
  · right
    rcases h : q.executeQuery db with ⟨r, p1, n⟩
    rcases r <;> simp [Paginator.count, h0, h]
  · left; simp [Paginator.count, h0]

theorem nextPage_state_mem (db : DataSource ε π ρ) (q : Paginator π ρ) :
    (q.nextPage db).2.1 = q ∨ (q.nextPage db).2.1 = (q.executeQuery db).2.1 := by
  by_cases h0 : q.response.length ≤ 0
  · right
    rcases h : q.executeQuery db with ⟨r, p1, n⟩
    rcases r <;> simp [Paginator.nextPage, h0, h]
  · left; simp [Paginator.nextPage, h0]

theorem firstItem_state_mem (db : DataSource ε π ρ) (q : Paginator π ρ) :
    (q.firstItem db).2.1 = q ∨ (q.firstItem db).2.1 = (q.executeQuery db).2.1 := by
  by_cases h0 : q.response.length ≤ 0
  · right
    rcases h : q.executeQuery db with ⟨r, p1, n⟩
    rcases r <;> simp [Paginator.firstItem, h0, h]
  · left; simp [Paginator.firstItem, h0]

theorem lastItem_state_mem (db : DataSource ε π ρ) (q : Paginator π ρ) :
    (q.lastItem db).2.1 = q ∨ (q.lastItem db).2.1 = (q.executeQuery db).2.1 := by
  by_cases h0 : q.response.length ≤ 0
  · right
    rcases h : q.executeQuery db with ⟨r, p1, n⟩
    rcases r <;> simp [Paginator.lastItem, h0, h]
  · left; simp [Paginator.lastItem, h0]

theorem items_state_mem (db : DataSource ε π ρ) (q : Paginator π ρ) :
    (q.items db).2.1 = q ∨ (q.items db).2.1 = (q.executeQuery db).2.1 := by
  by_cases h0 : q.response.length ≤ 0
  · right
    rcases h : q.executeQuery db with ⟨r, p1, n⟩
    rcases r <;> simp [Paginator.items, h0, h]
  · left; simp [Paginator.items, h0]

theorem toObjectFrom_preserves (db : DataSource ε π ρ) (Q : Paginator π ρ → Prop)
    (hexec : ∀ r, Q r → Q (r.executeQuery db).2.1)
    (q : Paginator π ρ) (hq : Q q) (n0 : Nat) :
    Q (q.toObjectFrom db n0).2.1 := by
  have hc : ∀ r : Paginator π ρ, Q r → Q (r.count db).2.1 := fun r hr =>
    (count_state_mem db r).elim (fun h => by rw [h]; exact hr)
      (fun h => by rw [h]; exact hexec r hr)
  have hn : ∀ r : Paginator π ρ, Q r → Q (r.nextPage db).2.1 := fun r hr =>
    (nextPage_state_mem db r).elim (fun h => by rw [h]; exact hr)
      (fun h => by rw [h]; exact hexec r hr)
  have hi : ∀ r : Paginator π ρ, Q r → Q (r.items db).2.1 := fun r hr =>
    (items_state_mem db r).elim (fun h => by rw [h]; exact hr)
      (fun h => by rw [h]; exact hexec r hr)
  rcases h2 : q.count db with ⟨r2, p2, n2⟩
  have hp2 : Q p2 := by have := hc q hq; rw [h2] at this; exact this
  rcases r2 with e2 | c2
  · simp [Paginator.toObjectFrom, h2]; exact hp2
  · rcases h3 : p2.nextPage db with ⟨r3, p3, n3⟩
    have hp3 : Q p3 := by have := hn p2 hp2; rw [h3] at this; exact this
    rcases r3 with e3 | v3
    · simp [Paginator.toObjectFrom, h2, h3]; exact hp3
    · rcases h4 : p3.items db with ⟨r4, p4, n4⟩
      have hp4 : Q p4 := by have := hi p3 hp3; rw [h4] at this; exact this
      rcases r4 with e4 | v4
      · simp [Paginator.toObjectFrom, h2, h3, h4]; exact hp4
      · simp [Paginator.toObjectFrom, h2, h3, h4]; exact hp4

theorem runAccessor_preserves (db : DataSource ε π ρ) (Q : Paginator π ρ → Prop)
    (hexec : ∀ r, Q r → Q (r.executeQuery db).2.1)
    (q : Paginator π ρ) (hq : Q q) (a : Accessor) :
    Q (runAccessor db q a).1 := by
  cases a
  case count =>
    exact (count_state_mem db q).elim (fun h => by simpa [runAccessor, h])
      (fun h => by simpa [runAccessor, h] using hexec q hq)
  case nextPage =>
    exact (nextPage_state_mem db q).elim (fun h => by simpa [runAccessor, h])
      (fun h => by simpa [runAccessor, h] using hexec q hq)
  case firstItem =>
    exact (firstItem_state_mem db q).elim (fun h => by simpa [runAccessor, h])
      (fun h => by simpa [runAccessor, h] using hexec q hq)
  case lastItem =>
    exact (lastItem_state_mem db q).elim (fun h => by simpa [runAccessor, h])
      (fun h => by simpa [runAccessor, h] using hexec q hq)
  case items =>
    exact (items_state_mem db q).elim (fun h => by simpa [runAccessor, h])
      (fun h => by simpa [runAccessor, h] using hexec q hq)
  case toObject =>
    by_cases h0 : q.response.length ≤ 0
    · rcases h : q.executeQuery db with ⟨r, p1, n⟩
      have hp1 : Q p1 := by have := hexec q hq; rw [h] at this; exact this
      rcases r with e | v
      · simp [runAccessor, Paginator.toObject, h0, h]; exact hp1
      · simp only [runAccessor, Paginator.toObject, h0, if_true, h]
        exact toObjectFrom_preserves db Q hexec p1 hp1 n
    · simp only [runAccessor, Paginator.toObject, h0, if_false]
      exact toObjectFrom_preserves db Q hexec q hq 0

theorem runAccessors_preserves (db : DataSource ε π ρ) (Q : Paginator π ρ → Prop)
    (hexec : ∀ r, Q r → Q (r.executeQuery db).2.1)
    (q : Paginator π ρ) (hq : Q q) (as : List Accessor) :
    Q (runAccessors db q as).1 := by
  induction as generalizing q with
  | nil => exact hq
  | cons a as ih =>
      simp only [runAccessors]
      exact ih _ (runAccessor_preserves db Q hexec q hq a)

theorem executeQuery_inv (db : DataSource ε π ρ) (s : Nat)
    (hdb : ∀ q a rows, db q a = .ok rows → rows.length ≤ s + 1)
    (q : Paginator π ρ)
    (hq : q.perPageProp = (s : Rat) ∧ q.response.length ≤ s) :
    ((q.executeQuery db).2.1).perPageProp = (s : Rat) ∧
    ((q.executeQuery db).2.1).response.length ≤ s := by
  rcases h : db q.generatePaginationSqlSnippet q.sqlParamsProp with e | rows
  · rw [executeQuery_error db q e h]; exact hq
  · have hlen := hdb _ _ _ h
    by_cases hgt : q.perPageProp < (rows.length : Rat)
    · rw [executeQuery_ok_gt db q rows h hgt]
      refine ⟨hq.1, ?_⟩
      simp only [List.length_dropLast]
      omega
    · rw [executeQuery_ok_le db q rows h (not_lt.mp hgt)]
      refine ⟨hq.1, ?_⟩
      have hle := not_lt.mp hgt
      rw [hq.1] at hle
      exact_mod_cast hle

theorem runAccessor_cached (db : DataSource ε π ρ) (q : Paginator π ρ)
    (h : q.response ≠ []) (a : Accessor) : runAccessor db q a = (q, 0) := by
  cases a <;>
    simp [runAccessor, count_cached db q h, nextPage_cached db q h,
      firstItem_cached db q h, lastItem_cached db q h, items_cached db q h,
      toObject_cached db q h]

theorem runAccessors_cached (db : DataSource ε π ρ) (q : Paginator π ρ)
    (h : q.response ≠ []) (as : List Accessor) : runAccessors db q as = (q, 0) := by
  induction as with
  | nil => rfl
  | cons a as ih => simp [runAccessors, runAccessor_cached db q h a, ih]

theorem executeQuery_keeps_nonempty (db : DataSource ε π ρ) (p : Paginator π ρ)
    (rows : List ρ)
    (hdb : db p.generatePaginationSqlSnippet p.sqlParamsProp = .ok rows)
    (hrows : rows ≠ []) (hs1 : (1 : Rat) ≤ p.perPageProp) :
    ((p.executeQuery db).2.1).response ≠ [] := by
  by_cases hgt : p.perPageProp < (rows.length : Rat)
  · rw [executeQuery_ok_gt db p rows hdb hgt]
    have h1 : (1 : Rat) < (rows.length : Rat) := lt_of_le_of_lt hs1 hgt
    have h2 : 1 < rows.length := by exact_mod_cast h1
    have h3 : 0 < rows.dropLast.length := by
      simp only [List.length_dropLast]; omega
    simpa using List.length_pos.mp h3
  · rw [executeQuery_ok_le db p rows hdb (not_lt.mp hgt)]
    simpa using hrows

theorem runAccessor_first_fetch (db : DataSource ε π ρ) (p : Paginator π ρ)
    (rows : List ρ) (hresp : p.response = [])
    (hdb : db p.generatePaginationSqlSnippet p.sqlParamsProp = .ok rows)
    (hrows : rows ≠ []) (hs1 : (1 : Rat) ≤ p.perPageProp) (a : Accessor) :
    (runAccessor db p a).2 = 1 ∧ ((runAccessor db p a).1).response ≠ [] := by
  have h0 : p.response.length ≤ 0 := by simp [hresp]
  by_cases hgt : p.perPageProp < (rows.length : Rat)
  · have he := executeQuery_ok_gt db p rows hdb hgt
    have h1 : (1 : Rat) < (rows.length : Rat) := lt_of_le_of_lt hs1 hgt
    have h2 : 1 < rows.length := by exact_mod_cast h1
    have hne : rows.dropLast ≠ [] := by
      have h3 : 0 < rows.dropLast.length := by
        simp only [List.length_dropLast]; omega
      exact List.length_pos.mp h3
    cases a <;>
      first
        | (simp [runAccessor, Paginator.count, Paginator.nextPage,
            Paginator.firstItem, Paginator.lastItem, Paginator.items, h0, he, hne]
           done)
        | (simp only [runAccessor, Paginator.toObject, h0, if_true, he]
           rw [toObjectFrom_cached db _ 1 (by simpa using hne)]
           exact ⟨rfl, by simpa using hne⟩)
  · have he := executeQuery_ok_le db p rows hdb (not_lt.mp hgt)
    cases a <;>
      first
        | (simp [runAccessor, Paginator.count, Paginator.nextPage,
            Paginator.firstItem, Paginator.lastItem, Paginator.items, h0, he, hrows]
           done)
        | (simp only [runAccessor, Paginator.toObject, h0, if_true, he]
           rw [toObjectFrom_cached db _ 1 (by simpa using hrows)]
           exact ⟨rfl, by simpa using hrows⟩)

theorem executeQuery_ok_spec (db : DataSource ε π ρ) (p : Paginator π ρ)
    (rows : List ρ)
    (hdb : db p.generatePaginationSqlSnippet p.sqlParamsProp = .ok rows) :
    p.executeQuery db =
      (.ok ((p.executeQuery db).2.1).response, (p.executeQuery db).2.1, 1) ∧
    ((p.executeQuery db).2.1).sqlProp = p.sqlProp ∧
    ((p.executeQuery db).2.1).sqlParamsProp = p.sqlParamsProp ∧
    ((p.executeQuery db).2.1).perPageProp = p.perPageProp ∧
    ((p.executeQuery db).2.1).currentPageProp = p.currentPageProp := by
  by_cases hgt : p.perPageProp < (rows.length : Rat)
  · rw [executeQuery_ok_gt db p rows hdb hgt]
    exact ⟨rfl, rfl, rfl, rfl, rfl⟩
  · rw [executeQuery_ok_le db p rows hdb (not_lt.mp hgt)]
    exact ⟨rfl, rfl, rfl, rfl, rfl⟩

theorem snippet_congr (p q : Paginator π ρ) (h1 : q.sqlProp = p.sqlProp)
    (h2 : q.perPageProp = p.perPageProp) (h3 : q.currentPageProp = p.currentPageProp) :
    q.generatePaginationSqlSnippet = p.generatePaginationSqlSnippet := by
  simp [Paginator.generatePaginationSqlSnippet,
    Paginator.getLimitAndOffsetByPageAndContentPerPage, Paginator.currentPage,
    Paginator.perPage, h1, h2, h3]

theorem executeQuery_stable (db : DataSource ε π ρ) (p : Paginator π ρ)
    (rows : List ρ)
    (hdb : db p.generatePaginationSqlSnippet p.sqlParamsProp = .ok rows) :
    ((p.executeQuery db).2.1).executeQuery db =
      (.ok ((p.executeQuery db).2.1).response, (p.executeQuery db).2.1, 1) := by
  by_cases hgt : p.perPageProp < (rows.length : Rat)
  · rw [executeQuery_ok_gt db p rows hdb hgt]
    exact executeQuery_ok_gt db _ rows hdb hgt
  · have hle := not_lt.mp hgt
    rw [executeQuery_ok_le db p rows hdb hle]
    exact executeQuery_ok_le db _ rows hdb hle

theorem count_stable (db : DataSource ε π ρ) (q : Paginator π ρ)
    (hq : q.executeQuery db = (.ok q.response, q, 1)) :
    q.count db = (.ok q.response.length, q, if q.response.length ≤ 0 then 1 else 0) := by
  by_cases h0 : q.response.length ≤ 0 <;> simp [Paginator.count, h0, hq]

theorem nextPage_stable (db : DataSource ε π ρ) (q : Paginator π ρ)
    (hq : q.executeQuery db = (.ok q.response, q, 1)) :
    q.nextPage db =
      (.ok (if q.hasNext then .num (q.currentPage + 1) else .bool false), q,
       if q.response.length ≤ 0 then 1 else 0) := by
  by_cases h0 : q.response.length ≤ 0 <;> simp [Paginator.nextPage, h0, hq]

theorem items_stable (db : DataSource ε π ρ) (q : Paginator π ρ)
    (hq : q.executeQuery db = (.ok q.response, q, 1)) :
    q.items db = (.ok q.response, q, if q.response.length ≤ 0 then 1 else 0) := by
  by_cases h0 : q.response.length ≤ 0 <;> simp [Paginator.items, h0, hq]

theorem toObjectFrom_stable (db : DataSource ε π ρ) (q : Paginator π ρ)
    (hq : q.executeQuery db = (.ok q.response, q, 1)) (n0 : Nat) :
    (q.toObjectFrom db n0).1 =
      .ok { count := q.response.length
            previous_page := q.previousPage
            current_page := q.currentPage
            next_page := if q.hasNext then .num (q.currentPage + 1) else .bool false
            per_page := q.perPage
            items := q.response } ∧
    (q.toObjectFrom db n0).2.1 = q := by
  simp [Paginator.toObjectFrom, count_stable db q hq, nextPage_stable db q hq,
    items_stable db q hq]

theorem toObjectFrom_invocations_ge (db : DataSource ε π ρ) (q : Paginator π ρ)
    (n0 : Nat) : n0 ≤ (q.toObjectFrom db n0).2.2 := by
  rcases h2 : q.count db with ⟨r2, p2, n2⟩
  rcases r2 with e2 | c2
  · simp [Paginator.toObjectFrom, h2]
  · rcases h3 : p2.nextPage db with ⟨r3, p3, n3⟩
    rcases r3 with e3 | v3
    · simp [Paginator.toObjectFrom, h2, h3]; omega
    · rcases h4 : p3.items db with ⟨r4, p4, n4⟩
      rcases r4 with e4 | v4 <;> simp [Paginator.toObjectFrom, h2, h3, h4] <;> omega


/-- C1: for every Paginator constructed with pageNumber >= 1 and pageSize > 0,
the window uses offset = (pageNumber - 1) * pageSize and requests
pageSize + 1 rows, and the executed query text is the base query with exactly
this LIMIT/OFFSET clause appended. -/
theorem C1_window_offset_and_overfetch_snippet (sql : String) (params : π)
    (s n : Rat) (hn : 1 ≤ n) (hs : 0 < s) (p : Paginator π ρ)
    (hp : Paginator.construct sql params (.num s) (.num n) = .ok p) :
    p.getLimitAndOffsetByPageAndContentPerPage = ⟨(n - 1) * s, s⟩ ∧
    p.generatePaginationSqlSnippet =
      sql ++ " LIMIT " ++ jsNumToString (s + 1) ++ " OFFSET "
        ++ jsNumToString ((n - 1) * s) := by
  rw [construct_num] at hp
  have hn0 : ¬ n = 0 := by intro h; rw [h] at hn; norm_num at hn
  rw [if_neg hn0] at hp
  have hps := (Except.ok.injEq _ _).mp hp
  subst hps
  have hoff : n * s - s = (n - 1) * s := by ring
  have hpos : (0 : Rat) < s := hs
  constructor
  · simp [Paginator.getLimitAndOffsetByPageAndContentPerPage,
      Paginator.currentPage, Paginator.perPage, hoff]
  · simp [Paginator.generatePaginationSqlSnippet,
      Paginator.getLimitAndOffsetByPageAndContentPerPage,
      Paginator.currentPage, Paginator.perPage, hoff]

/-- Witness for C1 at sql "SELECT id FROM t", pageSize 10, pageNumber 2. -/
theorem C1_window_offset_and_overfetch_snippet_witness :
    Paginator.construct "SELECT id FROM t" () (.num 10) (.num 2) = .ok P2 ∧
    P2.getLimitAndOffsetByPageAndContentPerPage = ⟨10, 10⟩ ∧
    P2.generatePaginationSqlSnippet = "SELECT id FROM t LIMIT 11 OFFSET 10" := by
  have hp : Paginator.construct "SELECT id FROM t" () (.num 10) (.num 2) =
      .ok P2 := by decide
  have h := C1_window_offset_and_overfetch_snippet "SELECT id FROM t" () 10 2
    (by norm_num) (by norm_num) P2 hp
  refine ⟨hp, ?_, ?_⟩
  · rw [h.1]; norm_num
  · rw [h.2]
    norm_num [jsNumToString]
    decide

/-- C2: if the data source returns exactly k <= pageSize rows, items() returns
all k rows, count() returns k, and nextPage() returns false; if it returns
pageSize + 1 rows, items() returns exactly the first pageSize rows (extra row
trimmed), count() returns pageSize, and nextPage() returns currentPage() + 1. -/
theorem C2_overfetch_trim_semantics (db : DataSource ε π ρ) (p : Paginator π ρ)
    (s : Nat) (hs : p.perPageProp = (s : Rat)) (hresp : p.response = [])
    (rows : List ρ)
    (hdb : db p.generatePaginationSqlSnippet p.sqlParamsProp = .ok rows) :
    (rows.length ≤ s →
      (p.items db).1 = .ok rows ∧ (p.count db).1 = .ok rows.length ∧
      (p.nextPage db).1 = .ok (.bool false)) ∧
    (rows.length = s + 1 →
      (p.items db).1 = .ok (rows.take s) ∧ (p.count db).1 = .ok s ∧
      (p.nextPage db).1 = .ok (.num (p.currentPage + 1))) := by
  have h0 : p.response.length ≤ 0 := by simp [hresp]
  constructor
  · intro hk
    have hle : (rows.length : Rat) ≤ p.perPageProp := by
      rw [hs]; exact_mod_cast hk
    have he := executeQuery_ok_le db p rows hdb hle
    refine ⟨?_, ?_, ?_⟩
    · simp [Paginator.items, h0, he]
    · simp [Paginator.count, h0, he]
    · simp [Paginator.nextPage, h0, he]
  · intro hk
    have hgt : p.perPageProp < (rows.length : Rat) := by
      rw [hs, hk]; exact_mod_cast Nat.lt_succ_self s
    have he := executeQuery_ok_gt db p rows hdb hgt
    have htake : rows.dropLast = rows.take s := by
      rw [List.dropLast_eq_take, hk]; simp
    refine ⟨?_, ?_, ?_⟩
    · simp [Paginator.items, h0, he, htake]
    · simp [Paginator.count, h0, he, List.length_dropLast, hk]
    · simp [Paginator.nextPage, h0, he, Paginator.currentPage]

/-- Witness for C2: page 2 of size 10, with a five-row source (k <= pageSize)
and an eleven-row source (pageSize + 1 rows). -/
theorem C2_overfetch_trim_semantics_witness :
    ((P2.items db5).1 = .ok [1, 2, 3, 4, 5] ∧ (P2.count db5).1 = .ok 5 ∧
      (P2.nextPage db5).1 = .ok (.bool false)) ∧
    ((P2.items db11).1 = .ok [1, 2, 3, 4, 5, 6, 7, 8, 9, 10] ∧
      (P2.count db11).1 = .ok 10 ∧ (P2.nextPage db11).1 = .ok (.num 3)) := by
  have h1 := (C2_overfetch_trim_semantics db5 P2 10 (by norm_num [P2]) rfl
    [1, 2, 3, 4, 5] rfl).1 (by norm_num)
  have h2 := (C2_overfetch_trim_semantics db11 P2 10 (by norm_num [P2]) rfl
    [1, 2, 3, 4, 5, 6, 7, 8, 9, 10, 11] rfl).2 (by norm_num)
  refine ⟨⟨h1.1, h1.2.1, h1.2.2⟩, ?_, ?_, ?_⟩
  · rw [h2.1]; decide
  · exact h2.2.1
  · rw [h2.2.2]
    norm_num [P2, Paginator.currentPage]

/-- C3 counterexample: a successfully constructed instance against a data
source that succeeds (returning zero rows) performs TWO executions for
count() followed by items(), refuting "exactly one execution per instance as
long as prior fetches succeeded". -/
theorem C3_single_execution_counterexample :
    Paginator.construct "SELECT id FROM t" () (.num 10) (.num 1) = .ok P1 ∧
    dbEmpty P1.generatePaginationSqlSnippet P1.sqlParamsProp = .ok [] ∧
    (runAccessors dbEmpty P1 [.count, .items]).2 = 2 := by
  refine ⟨by decide, rfl, by decide⟩

/-- C3 (amended): on an instance whose window query succeeds with at least one
row and whose page size is at least 1, no execution occurs at construction
(the cache starts empty) and any nonempty sequence of result-dependent
accessor calls triggers exactly one execution against the data source. -/
theorem C3_single_execution_amended (sql : String) (params : π) (s c : Rat)
    (p : Paginator π ρ)
    (hp : Paginator.construct sql params (.num s) (.num c) = .ok p)
    (db : DataSource ε π ρ) (rows : List ρ)
    (hdb : db p.generatePaginationSqlSnippet p.sqlParamsProp = .ok rows)
    (hrows : rows ≠ []) (hs1 : (1 : Rat) ≤ s) :
    p.response = [] ∧
    ∀ as : List Accessor, as ≠ [] → (runAccessors db p as).2 = 1 := by
  rw [construct_num] at hp
  have hps := (Except.ok.injEq _ _).mp hp
  subst hps
  refine ⟨rfl, ?_⟩
  rintro (_ | ⟨a, as⟩) h
  · exact absurd rfl h
  · obtain ⟨h1, hne⟩ := runAccessor_first_fetch db _ rows rfl hdb hrows
      (by simpa using hs1) a
    have h2 := runAccessors_cached db _ hne as
    simp [runAccessors, h1, h2]

/-- Witness for amended C3: count, items and toSummary on one instance with a
five-row source perform one single execution in total. -/
theorem C3_single_execution_amended_witness :
    Paginator.construct "SELECT id FROM t" () (.num 10) (.num 1) = .ok P1 ∧
    P1.response = [] ∧
    (runAccessors db5 P1 [.count, .items, .toObject]).2 = 1 := by
  have hp : Paginator.construct "SELECT id FROM t" () (.num 10) (.num 1) =
      .ok P1 := by decide
  have h := C3_single_execution_amended "SELECT id FROM t" () 10 1 P1 hp db5
    [1, 2, 3, 4, 5] rfl (by decide) (by norm_num)
  exact ⟨hp, h.1, h.2 [.count, .items, .toObject] (by decide)⟩

/-- C4: construction fails with the distinctly coded configuration errors:
omitted page size raises MISSING_REQUIRED_PER_PAGE, a non-number page size
raises INVALID_TYPE_PER_PAGE, a supplied non-number page number raises
INVALID_TYPE_CURRENT_PAGE; each error carries status 500 and the offending
value, and construction succeeds otherwise. -/
theorem C4_constructor_error_codes (sql : String) (params : π) (pp cp : JSValue) :
    (pp = .undefined →
      Paginator.construct (ρ := ρ) sql params pp cp =
        .error ⟨"Missing required 'perPage'",
          FILE ++ "::MISSING_REQUIRED_PER_PAGE", 500, ("perPage", pp)⟩) ∧
    (pp ≠ .undefined → pp.typeof ≠ "number" →
      Paginator.construct (ρ := ρ) sql params pp cp =
        .error ⟨"Invalid type for 'perPage'",
          FILE ++ "::INVALID_TYPE_PER_PAGE", 500, ("perPage", pp)⟩) ∧
    (pp.typeof = "number" → cp ≠ .null → cp ≠ .undefined → cp.typeof ≠ "number" →
      Paginator.construct (ρ := ρ) sql params pp cp =
        .error ⟨"Invalid type for 'currentPage'",
          FILE ++ "::INVALID_TYPE_CURRENT_PAGE", 500, ("currentPage", cp)⟩) ∧
    (pp.typeof = "number" → (cp = .null ∨ cp = .undefined ∨ cp.typeof = "number") →
      ∃ p, Paginator.construct (ρ := ρ) sql params pp cp = .ok p) := by
  rcases pp <;> rcases cp <;>
    simp [Paginator.construct, JSValue.typeof, JSValue.toNumber, JSValue.falsy]

/-- Witness for C4: the three error cases at concrete offending values. -/
theorem C4_constructor_error_codes_witness :
    Paginator.construct (π := Unit) (ρ := Nat) "q" () .undefined .null =
      .error ⟨"Missing required 'perPage'",
        FILE ++ "::MISSING_REQUIRED_PER_PAGE", 500, ("perPage", .undefined)⟩ ∧
    Paginator.construct (π := Unit) (ρ := Nat) "q" () (.str "5") .null =
      .error ⟨"Invalid type for 'perPage'",
        FILE ++ "::INVALID_TYPE_PER_PAGE", 500, ("perPage", .str "5")⟩ ∧
    Paginator.construct (π := Unit) (ρ := Nat) "q" () (.num 10) (.str "2") =
      .error ⟨"Invalid type for 'currentPage'",
        FILE ++ "::INVALID_TYPE_CURRENT_PAGE", 500, ("currentPage", .str "2")⟩ := by
  refine ⟨(C4_constructor_error_codes "q" () .undefined .null).1 rfl,
    (C4_constructor_error_codes "q" () (.str "5") .null).2.1 (by decide) (by decide),
    (C4_constructor_error_codes "q" () (.num 10) (.str "2")).2.2.1 rfl
      (by decide) (by decide) (by decide)⟩

/-- C5: if the page number is omitted or falsy at construction (including a
caller-supplied 0), the instance behaves as page 1: currentPage() returns 1
and the computed offset is 0. -/
theorem C5_falsy_current_page_defaults (sql : String) (params : π) (s : Rat)
    (cp : JSValue) (hcp : cp = .null ∨ cp = .undefined ∨ cp = .num 0)
    (p : Paginator π ρ) (hp : Paginator.construct sql params (.num s) cp = .ok p) :
    p.currentPage = 1 ∧ p.getLimitAndOffsetByPageAndContentPerPage.offset = 0 := by
  have hps : p.currentPageProp = 1 ∧ p.perPageProp = s := by
    rcases hcp with h | h | h <;> subst h
    · rw [construct_null] at hp
      have := (Except.ok.injEq _ _).mp hp
      subst this; exact ⟨rfl, rfl⟩
    · rw [construct_undef] at hp
      have := (Except.ok.injEq _ _).mp hp
      subst this; exact ⟨rfl, rfl⟩
    · rw [construct_num] at hp
      have := (Except.ok.injEq _ _).mp hp
      subst this; exact ⟨by norm_num, rfl⟩
  refine ⟨hps.1, ?_⟩
  simp [Paginator.getLimitAndOffsetByPageAndContentPerPage, Paginator.currentPage,
    Paginator.perPage, hps.1]

/-- Witness for C5 at a caller-supplied page number 0. -/
theorem C5_falsy_current_page_defaults_witness :
    Paginator.construct "q" () (.num 10) (.num 0) = .ok P5 ∧
    P5.currentPage = 1 ∧ P5.getLimitAndOffsetByPageAndContentPerPage.offset = 0 := by
  have hp : Paginator.construct "q" () (.num 10) (.num 0) = .ok P5 := by decide
  exact ⟨hp, C5_falsy_current_page_defaults "q" () 10 (.num 0)
    (Or.inr (Or.inr rfl)) P5 hp⟩

/-- C6: when the data source honors the LIMIT clause (returning at most
pageSize + 1 rows), the cached row list holds at most pageSize rows after the
fetch and after any sequence of accessor calls. -/
theorem C6_cached_rows_bounded (db : DataSource ε π ρ) (s : Nat)
    (hdb : ∀ q a rows, db q a = .ok rows → rows.length ≤ s + 1)
    (p : Paginator π ρ) (hs : p.perPageProp = (s : Rat))
    (hresp : p.response.length ≤ s) :
    (∀ rows, db p.generatePaginationSqlSnippet p.sqlParamsProp = .ok rows →
      ((p.executeQuery db).2.1).response.length ≤ s) ∧
    (∀ as : List Accessor, ((runAccessors db p as).1).response.length ≤ s) := by
  constructor
  · intro rows _
    exact (executeQuery_inv db s hdb p ⟨hs, hresp⟩).2
  · intro as
    exact (runAccessors_preserves db
      (fun q => q.perPageProp = (s : Rat) ∧ q.response.length ≤ s)
      (fun r hr => executeQuery_inv db s hdb r hr) p ⟨hs, hresp⟩ as).2

/-- Witness for C6 with the eleven-row source (pageSize + 1 = 11 rows). -/
theorem C6_cached_rows_bounded_witness :
    P2.response.length ≤ 10 ∧
    ((runAccessors db11 P2 [.count, .toObject, .items]).1).response.length ≤ 10 := by
  have hdb : ∀ q a rows, db11 q a = .ok rows → rows.length ≤ 10 + 1 := by
    intro q a rows h
    simp only [db11, Except.ok.injEq] at h
    rw [← h]
    decide
  exact ⟨by decide,
    (C6_cached_rows_bounded db11 10 hdb P2 (by norm_num [P2]) (by decide)).2
      [.count, .toObject, .items]⟩

/-- C7: if the data source fails on a not-yet-fetched instance, the error
propagates unchanged from every result-dependent accessor, the state (and so
the empty cache) is unchanged, and every subsequent accessor call performs a
fresh fetch attempt. -/
theorem C7_execution_error_retryable (db : DataSource ε π ρ) (p : Paginator π ρ)
    (e : ε) (hresp : p.response = [])
    (hdb : db p.generatePaginationSqlSnippet p.sqlParamsProp = .error e) :
    p.count db = (.error e, p, 1) ∧
    p.nextPage db = (.error e, p, 1) ∧
    p.firstItem db = (.error e, p, 1) ∧
    p.lastItem db = (.error e, p, 1) ∧
    p.items db = (.error e, p, 1) ∧
    p.toObject db = (.error e, p, 1) ∧
    (∀ a : Accessor, runAccessor db p a = (p, 1)) := by
  have h0 : p.response.length ≤ 0 := by simp [hresp]
  have he := executeQuery_error db p e hdb
  have hc : p.count db = (.error e, p, 1) := by simp [Paginator.count, h0, he]
  have hn : p.nextPage db = (.error e, p, 1) := by
    simp [Paginator.nextPage, h0, he]
  have hf : p.firstItem db = (.error e, p, 1) := by
    simp [Paginator.firstItem, h0, he]
  have hl : p.lastItem db = (.error e, p, 1) := by
    simp [Paginator.lastItem, h0, he]
  have hi : p.items db = (.error e, p, 1) := by simp [Paginator.items, h0, he]
  have ht : p.toObject db = (.error e, p, 1) := by
    simp [Paginator.toObject, h0, he]
  refine ⟨hc, hn, hf, hl, hi, ht, ?_⟩
  intro a
  cases a <;> simp [runAccessor, hc, hn, hf, hl, hi, ht]

/-- Witness for C7 with an always-failing source. -/
theorem C7_execution_error_retryable_witness :
    P5.count dbErr = (.error "boom", P5, 1) ∧
    P5.items dbErr = (.error "boom", P5, 1) := by
  have h := C7_execution_error_retryable dbErr P5 "boom" rfl rfl
  exact ⟨h.1, h.2.2.2.2.1⟩

/-- C8: previousPage() returns false when currentPage() is 1 and returns
currentPage() - 1 for every currentPage() > 1; it is a pure function of the
instance state and performs no fetch. -/
theorem C8_previous_page_spec (p : Paginator π ρ) :
    (p.currentPage = 1 → p.previousPage = .bool false) ∧
    (1 < p.currentPage → p.previousPage = .num (p.currentPage - 1)) := by
  constructor
  · intro h; simp [Paginator.previousPage, h]
  · intro h; simp [Paginator.previousPage, h]

/-- Witness for C8 at pages 1 and 3 on unfetched instances. -/
theorem C8_previous_page_spec_witness :
    P1.previousPage = .bool false ∧
    (Paginator.mk "q" () (10 : Rat) 3 false ([] : List Nat)).previousPage =
      .num 2 := by
  constructor
  · exact (C8_previous_page_spec P1).1 rfl
  · have h := (C8_previous_page_spec
      (Paginator.mk "q" () (10 : Rat) 3 false ([] : List Nat))).2
      (by norm_num [Paginator.currentPage])
    rw [h]
    norm_num [Paginator.currentPage]

/-- C9: toObject() fetches when the cache is empty and returns the aggregate
structure whose fields equal the results of count(), previousPage(),
currentPage(), nextPage(), perPage() and items() on the same instance. -/
theorem C9_to_object_composite (db : DataSource ε π ρ) (p : Paginator π ρ) :
    (p.response = [] → 1 ≤ (p.toObject db).2.2) ∧
    (∀ o : Summary ρ, (p.toObject db).1 = .ok o →
      (p.count db).1 = .ok o.count ∧
      o.previous_page = p.previousPage ∧
      o.current_page = p.currentPage ∧
      (p.nextPage db).1 = .ok o.next_page ∧
      o.per_page = p.perPage ∧
      (p.items db).1 = .ok o.items) := by
  by_cases hne : p.response = []
  · have h0 : p.response.length ≤ 0 := by simp [hne]
    rcases hdb : db p.generatePaginationSqlSnippet p.sqlParamsProp with e | rows
    · have he := executeQuery_error db p e hdb
      constructor
      · intro _; simp [Paginator.toObject, h0, he]
      · intro o ho
        exfalso
        simp [Paginator.toObject, h0, he] at ho
    · obtain ⟨hex, hsql, hpar, hper, hcur⟩ := executeQuery_ok_spec db p rows hdb
      have hstb := executeQuery_stable db p rows hdb
      obtain ⟨p1, hp1⟩ : ∃ q, (p.executeQuery db).2.1 = q := ⟨_, rfl⟩
      rw [hp1] at hex hsql hpar hper hcur hstb
      have htP : p.toObject db = p1.toObjectFrom db 1 := by
        simp only [Paginator.toObject, h0, if_true, hex]
      constructor
      · intro _
        rw [htP]
        exact le_trans (by norm_num) (toObjectFrom_invocations_ge db _ 1)
      · intro o ho
        rw [htP] at ho
        obtain ⟨hto1, _⟩ := toObjectFrom_stable db p1 hstb 1
        rw [hto1] at ho
        have hoeq := ((Except.ok.injEq _ _).mp ho).symm
        subst hoeq
        refine ⟨?_, ?_, ?_, ?_, ?_, ?_⟩
        · simp [Paginator.count, h0, hex]
        · simp [Paginator.previousPage, Paginator.currentPage, hcur]
        · simp [Paginator.currentPage, hcur]
        · simp [Paginator.nextPage, h0, hex]
        · simp [Paginator.perPage, hper]
        · simp [Paginator.items, h0, hex]
  · constructor
    · intro h; exact absurd h hne
    · intro o ho
      rw [toObject_cached db p hne] at ho
      have hoeq := ((Except.ok.injEq _ _).mp ho).symm
      subst hoeq
      refine ⟨?_, rfl, rfl, ?_, rfl, ?_⟩
      · rw [count_cached db p hne]
      · rw [nextPage_cached db p hne]
      · rw [items_cached db p hne]

/-- Witness for C9: page 1 of size 10 against the five-row source. -/
theorem C9_to_object_composite_witness :
    (P1.toObject db5).1 = .ok O5 ∧
    1 ≤ (P1.toObject db5).2.2 ∧
    (P1.count db5).1 = .ok O5.count ∧
    O5.previous_page = P1.previousPage ∧
    O5.current_page = P1.currentPage ∧
    (P1.nextPage db5).1 = .ok O5.next_page ∧
    O5.per_page = P1.perPage ∧
    (P1.items db5).1 = .ok O5.items := by
  have ho : (P1.toObject db5).1 = .ok O5 := by decide
  have h := C9_to_object_composite db5 P1
  obtain ⟨h1, h2, h3, h4, h5, h6⟩ := h.2 O5 ho
  exact ⟨ho, h.1 rfl, h1, h2, h3, h4, h5, h6⟩

/-- C10: constructor validation is type-only: it fails iff the page size is
not of number type (undefined included) or a supplied non-null page number is
not of number type; every numeric value is accepted, so pageSize 0, negative
or fractional page sizes, and negative or fractional page numbers all
construct; pageSize 0 yields LIMIT 1 OFFSET 0, and a negative pageNumber with
a positive pageSize yields a negative offset. -/
theorem C10_type_only_validation (sql : String) (params : π) :
    (∀ pp cp : JSValue,
      (∃ e, Paginator.construct (ρ := ρ) sql params pp cp = .error e) ↔
        (pp.typeof ≠ "number" ∨
          (cp ≠ .null ∧ cp ≠ .undefined ∧ cp.typeof ≠ "number"))) ∧
    (∀ s c : Rat, ∃ p : Paginator π ρ,
      Paginator.construct sql params (.num s) (.num c) = .ok p) ∧
    (∀ p : Paginator π ρ,
      Paginator.construct sql params (.num 0) (.num 1) = .ok p →
      p.generatePaginationSqlSnippet = sql ++ " LIMIT 1 OFFSET 0") ∧
    (∀ (s c : Rat) (p : Paginator π ρ), 0 < s → c < 0 →
      Paginator.construct sql params (.num s) (.num c) = .ok p →
      p.getLimitAndOffsetByPageAndContentPerPage.offset < 0) := by
  refine ⟨?_, ?_, ?_, ?_⟩
  · intro pp cp
    rcases pp <;> rcases cp <;>
      simp [Paginator.construct, JSValue.typeof, JSValue.toNumber, JSValue.falsy]
  · intro s c
    exact ⟨_, construct_num _ _ _ _⟩
  · intro p hp
    rw [construct_num] at hp
    have := (Except.ok.injEq _ _).mp hp
    subst this
    simp [Paginator.generatePaginationSqlSnippet,
      Paginator.getLimitAndOffsetByPageAndContentPerPage,
      Paginator.currentPage, Paginator.perPage]
    norm_num [jsNumToString]
    simp only [String.append_assoc]
    congr 1
  · intro s c p hs hc hp
    rw [construct_num] at hp
    have hc0 : ¬ c = 0 := by intro h; rw [h] at hc; norm_num at hc
    rw [if_neg hc0] at hp
    have := (Except.ok.injEq _ _).mp hp
    subst this
    simp [Paginator.getLimitAndOffsetByPageAndContentPerPage,
      Paginator.currentPage, Paginator.perPage]
    have hneg : c * s < 0 := mul_neg_of_neg_of_pos hc hs
    linarith

/-- Witness for C10: fractional and negative numeric arguments construct, a
non-number page size fails, pageSize 0 gives LIMIT 1 OFFSET 0, and a negative
page number gives a negative offset. -/
theorem C10_type_only_validation_witness :
    (∃ p : Paginator Unit Nat,
      Paginator.construct "q" () (.num (1 / 2)) (.num (-3)) = .ok p) ∧
    (∃ e, Paginator.construct (π := Unit) (ρ := Nat) "q" () (.bool true) .null =
      .error e) ∧
    Paginator.construct "q" () (.num 0) (.num 1) = .ok P10z ∧
    P10z.generatePaginationSqlSnippet = "q LIMIT 1 OFFSET 0" ∧
    Paginator.construct "q" () (.num 10) (.num (-2)) = .ok P10n ∧
    P10n.getLimitAndOffsetByPageAndContentPerPage.offset < 0 := by
  have h := C10_type_only_validation (π := Unit) (ρ := Nat) "q" ()
  have hpz : Paginator.construct "q" () (.num 0) (.num 1) = .ok P10z := by decide
  have hpn : Paginator.construct "q" () (.num 10) (.num (-2)) = .ok P10n := by
    decide
  exact ⟨h.2.1 (1 / 2) (-3), (h.1 (.bool true) .null).mpr (Or.inl (by decide)),
    hpz, h.2.2.1 P10z hpz, hpn,
    h.2.2.2 10 (-2) P10n (by norm_num) (by norm_num) hpn⟩

end LesgoPaginator
